import Mathlib

/-!
# Trusted-profile link resource: a shallow embedding

Source: `ibm/resource_ibm_iam_trusted_profiles_link.go`.

The Go file binds a declarative resource to the IAM identity service. It holds
the schema, the three lifecycle operations (Create, Read, Delete) and two
converters between a configuration map and the SDK link structs.

Conventions of the embedding

* A Go `interface{}` value is a `Scalar` (inside a map) or a `Value`.
* A Go `*string` is an `Option String`; `nil` is `none`.
* A Go `map[string]interface{}` is an association list with unique-key writes.
* A Go panic (failed type assertion, nil dereference) is `none` for the pure
  converters and `Outcome.panicked` for the lifecycle operations.
* `log.Printf` calls are left out: they change neither state nor result.
* The remote client is a record of answer functions; every remote call that an
  operation issues is appended to the run's call trace.
-/

namespace TrustedProfilesLink

/-! ## Dynamic values -/

/-- Dynamic values that can sit inside a `map[string]interface{}`: the nil
interface, a string, a `*string` (possibly a nil pointer), and an integer
standing for any value of another dynamic type. -/
inductive Scalar where
  | nil
  | str (s : String)
  | strPtr (p : Option String)
  | int (n : Int)
  deriving DecidableEq, Repr

/-- Go `map[string]interface{}` holding scalars. -/
abbrev GoMap := List (String × Scalar)

/-- Association-list write: replace the value of an existing key, otherwise
append the new entry. -/
def assocPut {β : Type} (k : String) (v : β) : List (String × β) → List (String × β)
  | [] => [(k, v)]
  | (k1, v1) :: rest => if k1 = k then (k, v) :: rest else (k1, v1) :: assocPut k v rest

/-- Association-list delete: drop every entry of the key. -/
def assocDel {β : Type} (k : String) : List (String × β) → List (String × β)
  | [] => []
  | (k1, v1) :: rest => if k1 = k then assocDel k rest else (k1, v1) :: assocDel k rest

/-- Go map index `m[k]`: the stored value, the nil interface when `k` is absent. -/
def GoMap.get (m : GoMap) (k : String) : Scalar :=
  (m.lookup k).getD Scalar.nil

/-- Go map assignment `m[k] = v`. -/
def GoMap.set (m : GoMap) (k : String) (v : Scalar) : GoMap :=
  assocPut k v m

/-- Type assertion `v.(string)` on a map element: `none` is the panic. -/
def Scalar.assertString : Scalar → Option String
  | Scalar.str s => some s
  | _ => none

/-! ## SDK structs (shapes as used by the source) -/

/-- The struct `iamidentityv1.CreateProfileLinkRequestLink`. -/
structure CreateProfileLinkRequestLink where
  CRN : Option String
  Namespace : Option String
  Name : Option String
  deriving DecidableEq, Repr

/-- The struct `iamidentityv1.ProfileLinkLink`. -/
structure ProfileLinkLink where
  CRN : Option String
  Namespace : Option String
  Name : Option String
  deriving DecidableEq, Repr

/-! ## The two converters -/

/-- Source lines 117-127. `core.StringPtr(x)` is `some x`; each `.(string)` may
panic (`none`). The `name` branch is guarded by `map["name"] != nil`. -/
def resourceIBMIamTrustedProfilesLinkMapToCreateProfileLinkRequestLink
    (createProfileLinkRequestLinkMap : GoMap) : Option CreateProfileLinkRequestLink :=
  match (createProfileLinkRequestLinkMap.get "crn").assertString with
  | none => none
  | some crn =>
    match (createProfileLinkRequestLinkMap.get "namespace").assertString with
    | none => none
    | some ns =>
      if createProfileLinkRequestLinkMap.get "name" ≠ Scalar.nil then
        match (createProfileLinkRequestLinkMap.get "name").assertString with
        | none => none
        | some nm => some { CRN := some crn, Namespace := some ns, Name := some nm }
      else
        some { CRN := some crn, Namespace := some ns, Name := none }

/-- Source lines 176-186. The pointers are stored in the map as they are; the
`name` key is written only when the pointer is not nil. -/
def resourceIBMIamTrustedProfilesLinkCreateProfileLinkRequestLinkToMap
    (createProfileLinkRequestLink : ProfileLinkLink) : GoMap :=
  let m0 : GoMap := []
  let m1 := m0.set "crn" (Scalar.strPtr createProfileLinkRequestLink.CRN)
  let m2 := m1.set "namespace" (Scalar.strPtr createProfileLinkRequestLink.Namespace)
  if createProfileLinkRequestLink.Name ≠ none then
    m2.set "name" (Scalar.strPtr createProfileLinkRequestLink.Name)
  else
    m2

/-- The record link that carries the three fields of a request link unchanged
(the transport between the two SDK struct types named by the round-trip
property; the source has no such function). -/
def carryLink (l : CreateProfileLinkRequestLink) : ProfileLinkLink :=
  { CRN := l.CRN, Namespace := l.Namespace, Name := l.Name }

/-! ## Resource data (the framework's view of configuration and state) -/

/-- Dynamic values answered by `d.Get`: a scalar, one nested block (a map), or a
list of nested blocks. -/
inductive Value where
  | scalar (s : Scalar)
  | map (m : GoMap)
  | list (ms : List GoMap)
  deriving DecidableEq, Repr

/-- A string as attribute value. -/
def strValue (s : String) : Value := Value.scalar (Scalar.str s)

/-- Type assertion `v.(string)`: `none` is the panic. -/
def Value.assertString : Value → Option String
  | Value.scalar (Scalar.str s) => some s
  | _ => none

/-- Type assertion `v.(map[string]interface{})`: `none` is the panic. -/
def Value.assertMap : Value → Option GoMap
  | Value.map m => some m
  | _ => none

/-- Attribute types used by the schema. -/
inductive ValueType where
  | TypeString
  | TypeList
  deriving DecidableEq, Repr

/-- One top-level schema entry (source lines 25-86); `Ty` is the field `Type`. -/
structure Schema where
  Ty : ValueType
  Required : Bool := false
  Optional : Bool := false
  Computed : Bool := false
  ForceNew : Bool := false
  MinItems : Nat := 0
  MaxItems : Nat := 0
  deriving DecidableEq, Repr

/-- The top-level schema of `resourceIBMIamTrustedProfilesLink` (source lines
25-86). The element of `link` declares `crn` and `namespace` as required
strings and `name` as an optional string. There is no entry for `link_id`. -/
def resourceIBMIamTrustedProfilesLink : List (String × Schema) :=
  [ ("profile_id", { Ty := ValueType.TypeString, Required := true, ForceNew := true }),
    ("cr_type", { Ty := ValueType.TypeString, Required := true, ForceNew := true }),
    ("link", { Ty := ValueType.TypeList, MinItems := 1, MaxItems := 1, Required := true,
               ForceNew := true }),
    ("name", { Ty := ValueType.TypeString, Optional := true, ForceNew := true }),
    ("entity_tag", { Ty := ValueType.TypeString, Computed := true }),
    ("created_at", { Ty := ValueType.TypeString, Computed := true }),
    ("modified_at", { Ty := ValueType.TypeString, Computed := true }) ]

/-- The element schema of `link` (source lines 45-63). -/
def linkElem : List (String × Schema) :=
  [ ("crn", { Ty := ValueType.TypeString, Required := true }),
    ("namespace", { Ty := ValueType.TypeString, Required := true }),
    ("name", { Ty := ValueType.TypeString, Optional := true }) ]

/-- Zero value the framework answers for a key that holds nothing: the type's
zero value for a declared key, the nil interface for an undeclared key. -/
def schemaZero (key : String) : Value :=
  match resourceIBMIamTrustedProfilesLink.lookup key with
  | some sch =>
    match sch.Ty with
    | ValueType.TypeString => Value.scalar (Scalar.str "")
    | ValueType.TypeList => Value.list []
  | none => Value.scalar Scalar.nil

/-- The framework's `*schema.ResourceData`: the stored identifier and the values
held per attribute key. Reads and writes go through the schema. -/
structure ResourceData where
  id : String
  attrs : List (String × Value)
  deriving DecidableEq, Repr

/-- The call `d.Get(key)`. The framework reads through the schema: a key the
schema does not declare is answered with the nil interface whatever the table
holds; a declared key is answered with the held value, otherwise with the zero
value of its type. -/
def ResourceData.Get (d : ResourceData) (key : String) : Value :=
  match resourceIBMIamTrustedProfilesLink.lookup key with
  | none => Value.scalar Scalar.nil
  | some _ =>
    match d.attrs.lookup key with
    | some v => v
    | none => schemaZero key

/-- The call `d.GetOk(key)`: the value of `d.Get(key)` and whether the key has
been set to a non-zero value (the framework's documented contract for `GetOk`). -/
def ResourceData.GetOk (d : ResourceData) (key : String) : Value × Bool :=
  match resourceIBMIamTrustedProfilesLink.lookup key with
  | none => (Value.scalar Scalar.nil, false)
  | some _ =>
    match d.attrs.lookup key with
    | some v => (v, decide (v ≠ schemaZero key))
    | none => (schemaZero key, false)

/-- The answer for one held `link` element: every key of the element schema,
with the held value, or with the empty string where the element holds nothing
under the key. -/
def answerElem (m : GoMap) : GoMap :=
  linkElem.map (fun e =>
    (e.1, match m.lookup e.1 with
          | some Scalar.nil => Scalar.str ""
          | some v => v
          | none => Scalar.str ""))

/-- The call `d.Get(key + "." + i)` for a list attribute: element `i` answered
key by key over the element schema (an omitted name arrives as the empty
string); for an element the list does not have, the empty map. -/
def ResourceData.GetElem (d : ResourceData) (key : String) (i : Nat) : Value :=
  match d.Get key with
  | Value.list ms =>
    match ms.get? i with
    | some m => Value.map (answerElem m)
    | none => Value.map []
  | _ => Value.scalar Scalar.nil

/-- What a write under a string field stores: the string itself, the string a
pointer points to, the empty string for nil; `none` when the value is refused. -/
def Scalar.storedString : Scalar → Option String
  | Scalar.nil => some ""
  | Scalar.str s => some s
  | Scalar.strPtr (some s) => some s
  | Scalar.strPtr none => some ""
  | Scalar.int _ => none

/-- Writing one `link` element: every key must be declared by the element
schema and every value must be storable as a string; the strings are stored. -/
def storeElem : GoMap → Except String GoMap
  | [] => Except.ok []
  | (k, v) :: rest =>
    match linkElem.lookup k with
    | none => Except.error ("Invalid address to set: " ++ k)
    | some _ =>
      match v.storedString with
      | none => Except.error (k ++ ": value does not match the declared type")
      | some s =>
        match storeElem rest with
        | Except.error e => Except.error e
        | Except.ok stored => Except.ok ((k, Scalar.str s) :: stored)

/-- Writing the elements of a list attribute, one by one. -/
def storeElems : List GoMap → Except String (List GoMap)
  | [] => Except.ok []
  | m :: rest =>
    match storeElem m with
    | Except.error e => Except.error e
    | Except.ok stored =>
      match storeElems rest with
      | Except.error e => Except.error e
      | Except.ok storedRest => Except.ok (stored :: storedRest)

/-- The call `d.Set(key, value)`: fails for a key the schema does not declare
and for a value of the wrong type. Under a string attribute a nil value or nil
pointer removes the held value and a pointer is stored as the string it points
to; under a list attribute the elements are stored with their pointed-to
strings. On failure nothing is written. -/
def ResourceData.Set (d : ResourceData) (key : String) (value : Value) :
    Except String ResourceData :=
  match resourceIBMIamTrustedProfilesLink.lookup key with
  | none => Except.error ("Invalid address to set: " ++ key)
  | some sch =>
    match sch.Ty, value with
    | ValueType.TypeString, Value.scalar Scalar.nil =>
      Except.ok { d with attrs := assocDel key d.attrs }
    | ValueType.TypeString, Value.scalar (Scalar.strPtr none) =>
      Except.ok { d with attrs := assocDel key d.attrs }
    | ValueType.TypeString, Value.scalar (Scalar.strPtr (some s)) =>
      Except.ok { d with attrs := assocPut key (strValue s) d.attrs }
    | ValueType.TypeString, Value.scalar (Scalar.str s) =>
      Except.ok { d with attrs := assocPut key (strValue s) d.attrs }
    | ValueType.TypeList, Value.scalar Scalar.nil =>
      Except.ok { d with attrs := assocDel key d.attrs }
    | ValueType.TypeList, Value.list ms =>
      match storeElems ms with
      | Except.error e => Except.error e
      | Except.ok stored => Except.ok { d with attrs := assocPut key (Value.list stored) d.attrs }
    | _, _ => Except.error (key ++ ": value does not match the declared type")

/-- The call `d.SetId(id)`: only the identifier changes. -/
def ResourceData.SetId (d : ResourceData) (id : String) : ResourceData :=
  { d with id := id }

/-! ## Remote service boundary -/

/-- An instant (`strfmt.DateTime`), kept abstract as a count of milliseconds. -/
structure DateTime where
  unixMillis : Int
  deriving DecidableEq, Repr

/-- The struct `iamidentityv1.ProfileLink`, the server record. -/
structure ProfileLink where
  ID : Option String
  EntityTag : Option String
  CreatedAt : Option DateTime
  ModifiedAt : Option DateTime
  Name : Option String
  CrType : Option String
  Link : Option ProfileLinkLink
  deriving DecidableEq, Repr

/-- The struct `iamidentityv1.CreateLinkOptions`. -/
structure CreateLinkOptions where
  ProfileID : Option String := none
  CrType : Option String := none
  Link : Option CreateProfileLinkRequestLink := none
  Name : Option String := none
  deriving DecidableEq, Repr

/-- The struct `iamidentityv1.GetLinkOptions`. -/
structure GetLinkOptions where
  ProfileID : Option String := none
  LinkID : Option String := none
  deriving DecidableEq, Repr

/-- The struct `iamidentityv1.DeleteLinkOptions`. -/
structure DeleteLinkOptions where
  ProfileID : Option String := none
  LinkID : Option String := none
  deriving DecidableEq, Repr

/-- The struct `core.DetailedResponse`: the status code and, as `text`, what its
`String()` method returns. -/
structure DetailedResponse where
  StatusCode : Int
  text : String
  deriving DecidableEq, Repr

/-- A failed remote call: the text of the error and the raw response, which may
be nil. -/
structure RemoteFailure where
  err : String
  response : Option DetailedResponse
  deriving DecidableEq, Repr

/-- The test `response != nil && response.StatusCode == 404` (source line 142). -/
def RemoteFailure.notFound (failure : RemoteFailure) : Bool :=
  match failure.response with
  | some response => decide (response.StatusCode = 404)
  | none => false

/-- Rendering of a `*core.DetailedResponse` under the `%s` verb, that is, its
`String()` method: the field `text` for a response, and `null` followed by a
line break for a nil pointer. -/
def renderResponse : Option DetailedResponse → String
  | none => "null\n"
  | some r => r.text

/-- The identity-service client: the answer of each remote operation. A
successful answer carries the record (for DeleteLink, nothing); the response
that comes with a success is not used by the source. -/
structure IamIdentityV1 where
  CreateLink : CreateLinkOptions → Except RemoteFailure ProfileLink
  GetLink : GetLinkOptions → Except RemoteFailure ProfileLink
  DeleteLink : DeleteLinkOptions → Except RemoteFailure Unit

/-- The session handed over as `meta`: the client lookup answers a client or
the text of an error. -/
structure ClientSession where
  IAMIdentityV1API : Except String IamIdentityV1

/-! ## Diagnostics, call trace, runs -/

/-- Severity of a diagnostic. -/
inductive Severity where
  | Error
  | Warning
  deriving DecidableEq, Repr

/-- One `diag.Diagnostic`. -/
structure Diagnostic where
  Severity : Severity
  Summary : String
  deriving DecidableEq, Repr

/-- The type `diag.Diagnostics`; a nil return is the empty list. -/
abbrev Diagnostics := List Diagnostic

/-- The call `diag.FromErr(err)`: one error diagnostic whose summary is the error text. -/
def diag.FromErr (err : String) : Diagnostics :=
  [{ Severity := Severity.Error, Summary := err }]

/-- A remote call issued by an operation. -/
inductive RemoteCall where
  | createLink (o : CreateLinkOptions)
  | getLink (o : GetLinkOptions)
  | deleteLink (o : DeleteLinkOptions)
  deriving DecidableEq, Repr

/-- How an operation ends: it returns diagnostics, or it panics. -/
inductive Outcome where
  | returned (diags : Diagnostics)
  | panicked
  deriving DecidableEq, Repr

/-- One run of a lifecycle operation: the resource data it leaves, the remote
calls it issued in order, and how it ended. -/
structure Run where
  d : ResourceData
  calls : List RemoteCall
  outcome : Outcome
  deriving DecidableEq, Repr

/-! ## Lifecycle operations -/

/-- Source lines 129-174. `dateTimeToString` is a helper of the repository that
lives outside this file; it is taken as a parameter.

The client lookup comes first. The two `d.Get(..).(string)` reads panic on a
value that is not a string. A failed
`GetLink` whose response is present with status 404 clears the identifier and
returns nil; any other failure returns an error diagnostic. On success the seven
attributes are written in source order, each write guarded by its own error
return; `*profileLink.Link` panics on a nil pointer. -/
def resourceIBMIamTrustedProfilesLinkRead (dateTimeToString : Option DateTime → String)
    (d : ResourceData) (meta : ClientSession) : Run :=
  match meta.IAMIdentityV1API with
  | Except.error err => { d := d, calls := [], outcome := Outcome.returned (diag.FromErr err) }
  | Except.ok iamIdentityClient =>
    match (d.Get "profile_id").assertString with
    | none => { d := d, calls := [], outcome := Outcome.panicked }
    | some profileID =>
    match (d.Get "link_id").assertString with
    | none => { d := d, calls := [], outcome := Outcome.panicked }
    | some linkID =>
    let getLinkOptions : GetLinkOptions := { ProfileID := some profileID, LinkID := some linkID }
    let calls := [RemoteCall.getLink getLinkOptions]
    match iamIdentityClient.GetLink getLinkOptions with
    | Except.error failure =>
      if failure.notFound then
        { d := d.SetId "", calls := calls, outcome := Outcome.returned [] }
      else
        { d := d, calls := calls, outcome := Outcome.returned (diag.FromErr
            ("GetLink failed " ++ failure.err ++ "\n" ++ renderResponse failure.response)) }
    | Except.ok profileLink =>
    match d.Set "profile_id" (Value.scalar (Scalar.strPtr getLinkOptions.ProfileID)) with
    | Except.error err =>
      { d := d, calls := calls,
        outcome := Outcome.returned (diag.FromErr ("Error setting profile_id: " ++ err)) }
    | Except.ok d1 =>
    match d1.Set "cr_type" (Value.scalar (Scalar.strPtr profileLink.CrType)) with
    | Except.error err =>
      { d := d1, calls := calls,
        outcome := Outcome.returned (diag.FromErr ("Error setting cr_type: " ++ err)) }
    | Except.ok d2 =>
    match profileLink.Link with
    | none => { d := d2, calls := calls, outcome := Outcome.panicked }
    | some link =>
    let linkMap := resourceIBMIamTrustedProfilesLinkCreateProfileLinkRequestLinkToMap link
    match d2.Set "link" (Value.list [linkMap]) with
    | Except.error err =>
      { d := d2, calls := calls,
        outcome := Outcome.returned (diag.FromErr ("Error setting link: " ++ err)) }
    | Except.ok d3 =>
    match d3.Set "name" (Value.scalar (Scalar.strPtr profileLink.Name)) with
    | Except.error err =>
      { d := d3, calls := calls,
        outcome := Outcome.returned (diag.FromErr ("Error setting name: " ++ err)) }
    | Except.ok d4 =>
    match d4.Set "entity_tag" (Value.scalar (Scalar.strPtr profileLink.EntityTag)) with
    | Except.error err =>
      { d := d4, calls := calls,
        outcome := Outcome.returned (diag.FromErr ("Error setting entity_tag: " ++ err)) }
    | Except.ok d5 =>
    match d5.Set "created_at"
        (Value.scalar (Scalar.str (dateTimeToString profileLink.CreatedAt))) with
    | Except.error err =>
      { d := d5, calls := calls,
        outcome := Outcome.returned (diag.FromErr ("Error setting created_at: " ++ err)) }
    | Except.ok d6 =>
    match d6.Set "modified_at"
        (Value.scalar (Scalar.str (dateTimeToString profileLink.ModifiedAt))) with
    | Except.error err =>
      { d := d6, calls := calls,
        outcome := Outcome.returned (diag.FromErr ("Error setting modified_at: " ++ err)) }
    | Except.ok d7 => { d := d7, calls := calls, outcome := Outcome.returned [] }

/-- Whether Read on `d` takes the not-found exit (source lines 142-145): the
client and both reads are available and `GetLink` fails with status 404. -/
def readReportsNotFound (d : ResourceData) (meta : ClientSession) : Bool :=
  match meta.IAMIdentityV1API with
  | Except.error _ => false
  | Except.ok iamIdentityClient =>
    match (d.Get "profile_id").assertString, (d.Get "link_id").assertString with
    | some profileID, some linkID =>
      match iamIdentityClient.GetLink { ProfileID := some profileID, LinkID := some linkID } with
      | Except.error failure => failure.notFound
      | Except.ok _ => false
    | _, _ => false

/-- Source lines 96-104: the request that Create builds from the resource data;
`none` is a panic of one of the type assertions or of the converter. The
top-level name is set only under `d.GetOk("name")`. -/
def createLinkOptionsOf (d : ResourceData) : Option CreateLinkOptions :=
  match (d.Get "profile_id").assertString with
  | none => none
  | some profileID =>
  match (d.Get "cr_type").assertString with
  | none => none
  | some crType =>
  match (d.GetElem "link" 0).assertMap with
  | none => none
  | some linkMap =>
  match resourceIBMIamTrustedProfilesLinkMapToCreateProfileLinkRequestLink linkMap with
  | none => none
  | some link =>
  let createLinkOptions : CreateLinkOptions :=
    { ProfileID := some profileID, CrType := some crType, Link := some link }
  if (d.GetOk "name").2 then
    match (d.Get "name").assertString with
    | none => none
    | some name => some { createLinkOptions with Name := some name }
  else
    some createLinkOptions

/-- Source lines 90-115. After the client lookup and the request construction,
`CreateLink` is called once. On failure an error diagnostic is returned. On
success the identifier is set to profile id, a slash, and the id of the
returned link (a nil `ID` pointer panics), and the run continues with Read on
the updated resource data. -/
def resourceIBMIamTrustedProfilesLinkCreate (dateTimeToString : Option DateTime → String)
    (d : ResourceData) (meta : ClientSession) : Run :=
  match meta.IAMIdentityV1API with
  | Except.error err => { d := d, calls := [], outcome := Outcome.returned (diag.FromErr err) }
  | Except.ok iamIdentityClient =>
    match createLinkOptionsOf d with
    | none => { d := d, calls := [], outcome := Outcome.panicked }
    | some createLinkOptions =>
    match iamIdentityClient.CreateLink createLinkOptions with
    | Except.error failure =>
      { d := d, calls := [RemoteCall.createLink createLinkOptions],
        outcome := Outcome.returned (diag.FromErr
          ("CreateLink failed " ++ failure.err ++ "\n" ++ renderResponse failure.response)) }
    | Except.ok profileLink =>
    match createLinkOptions.ProfileID, profileLink.ID with
    | some profileID, some linkID =>
      let d1 := d.SetId (profileID ++ "/" ++ linkID)
      let r := resourceIBMIamTrustedProfilesLinkRead dateTimeToString d1 meta
      { d := r.d, calls := RemoteCall.createLink createLinkOptions :: r.calls,
        outcome := r.outcome }
    | _, _ =>
      { d := d, calls := [RemoteCall.createLink createLinkOptions],
        outcome := Outcome.panicked }

/-- Source lines 188-208. Same prelude as Read; one `DeleteLink` call; on
failure an error diagnostic, on success the identifier is cleared. -/
def resourceIBMIamTrustedProfilesLinkDelete (d : ResourceData) (meta : ClientSession) : Run :=
  match meta.IAMIdentityV1API with
  | Except.error err => { d := d, calls := [], outcome := Outcome.returned (diag.FromErr err) }
  | Except.ok iamIdentityClient =>
    match (d.Get "profile_id").assertString with
    | none => { d := d, calls := [], outcome := Outcome.panicked }
    | some profileID =>
    match (d.Get "link_id").assertString with
    | none => { d := d, calls := [], outcome := Outcome.panicked }
    | some linkID =>
    let deleteLinkOptions : DeleteLinkOptions :=
      { ProfileID := some profileID, LinkID := some linkID }
    match iamIdentityClient.DeleteLink deleteLinkOptions with
    | Except.error failure =>
      { d := d, calls := [RemoteCall.deleteLink deleteLinkOptions],
        outcome := Outcome.returned (diag.FromErr
          ("DeleteLink failed " ++ failure.err ++ "\n" ++ renderResponse failure.response)) }
    | Except.ok _ =>
      { d := d.SetId "", calls := [RemoteCall.deleteLink deleteLinkOptions],
        outcome := Outcome.returned [] }

/-! ## No partial success, as a test on a run -/

/-- The run either returned no diagnostics, or returned diagnostics and left the
resource data as it was before the call. A run that panicked did neither. -/
def noPartialSuccess (before : ResourceData) (r : Run) : Bool :=
  match r.outcome with
  | Outcome.returned [] => true
  | Outcome.returned (_ :: _) => decide (r.d = before)
  | Outcome.panicked => false

/-! ## Sample inputs used by the closed theorems -/

/-- A rendering of timestamps used for the samples (the decimal count). -/
def sampleDateTimeToString : Option DateTime → String
  | none => ""
  | some t => toString t.unixMillis

/-- A configuration as the schema admits it: profile, type VSI, one target with
empty namespace and name, no top-level name, no identifier yet. -/
def sampleConfig : ResourceData :=
  { id := "",
    attrs := [("profile_id", strValue "profile-abc"),
              ("cr_type", strValue "VSI"),
              ("link", Value.list [[("crn", Scalar.str "crn:v1:bluemix:vsi"),
                                    ("namespace", Scalar.str ""), ("name", Scalar.str "")]])] }

/-- The sample configuration with the top-level name set to the empty string. -/
def sampleConfigEmptyName : ResourceData :=
  { sampleConfig with attrs := sampleConfig.attrs ++ [("name", strValue "")] }

/-- The sample configuration with the top-level name set to a non-empty string. -/
def sampleConfigNamed : ResourceData :=
  { sampleConfig with attrs := sampleConfig.attrs ++ [("name", strValue "my-link")] }

/-- State of a link created earlier: the composite identifier and, beyond the
sample configuration, values of the three computed attributes. -/
def sampleState : ResourceData :=
  { id := "profile-abc/link-123",
    attrs := sampleConfig.attrs ++
      [("entity_tag", strValue "old-tag"), ("created_at", strValue "old-created"),
       ("modified_at", strValue "old-modified")] }

/-- The request that Create builds from the sample configuration. -/
def sampleCreateLinkOptions : CreateLinkOptions :=
  { ProfileID := some "profile-abc", CrType := some "VSI",
    Link := some { CRN := some "crn:v1:bluemix:vsi", Namespace := some "", Name := some "" } }

/-- A server record with link id `link-123`. -/
def sampleRecord : ProfileLink :=
  { ID := some "link-123", EntityTag := some "tag-1", CreatedAt := some ⟨1⟩,
    ModifiedAt := some ⟨2⟩, Name := none, CrType := some "VSI",
    Link := some { CRN := some "crn:v1:bluemix:vsi", Namespace := some "", Name := some "" } }

/-- A client on which every remote call succeeds. -/
def sampleClient : IamIdentityV1 :=
  { CreateLink := fun _ => Except.ok sampleRecord,
    GetLink := fun _ => Except.ok sampleRecord,
    DeleteLink := fun _ => Except.ok () }

/-- A client whose CreateLink fails with status 500. -/
def sampleClientCreateFails : IamIdentityV1 :=
  { sampleClient with
    CreateLink := fun _ => Except.error { err := "boom", response := some ⟨500, "HTTP 500"⟩ } }

/-- A client whose GetLink answers not-found (status 404). -/
def sampleClientNotFound : IamIdentityV1 :=
  { sampleClient with
    GetLink := fun _ => Except.error { err := "not found", response := some ⟨404, "HTTP 404"⟩ } }

/-- Session that hands out the given client. -/
def sessionOf (c : IamIdentityV1) : ClientSession :=
  { IAMIdentityV1API := Except.ok c }

/-! ## Association-list facts -/

theorem lookup_assocPut_same {β : Type} (k : String) (v : β) (l : List (String × β)) :
    (assocPut k v l).lookup k = some v := by
  induction l with
  | nil => simp [assocPut, List.lookup]
  | cons hd tl ih =>
    obtain ⟨k1, v1⟩ := hd
    by_cases h : k1 = k
    · simp [assocPut, h, List.lookup]
    · have hne : (k == k1) = false := by
        simpa using fun e : k = k1 => h e.symm
      simp [assocPut, h, List.lookup, hne, ih]

theorem lookup_assocPut_other {β : Type} (k k2 : String) (v : β) (l : List (String × β))
    (hk : k2 ≠ k) : (assocPut k v l).lookup k2 = l.lookup k2 := by
  induction l with
  | nil =>
    have hne : (k2 == k) = false := by simpa using hk
    simp [assocPut, List.lookup, hne]
  | cons hd tl ih =>
    obtain ⟨k1, v1⟩ := hd
    by_cases h : k1 = k
    · subst h
      have hne : (k2 == k1) = false := by simpa using hk
      simp [assocPut, List.lookup, hne]
    · by_cases h2 : k2 = k1
      · subst h2
        simp [assocPut, h, List.lookup]
      · have hne : (k2 == k1) = false := by simpa using h2
        simp [assocPut, h, List.lookup, hne, ih]

theorem lookup_assocDel_same {β : Type} (k : String) (l : List (String × β)) :
    (assocDel k l).lookup k = none := by
  induction l with
  | nil => simp [assocDel, List.lookup]
  | cons hd tl ih =>
    obtain ⟨k1, v1⟩ := hd
    by_cases h : k1 = k
    · simp [assocDel, h, ih]
    · have hne : (k == k1) = false := by
        simpa using fun e : k = k1 => h e.symm
      simp [assocDel, h, List.lookup, hne, ih]

theorem lookup_assocDel_other {β : Type} (k k2 : String) (l : List (String × β))
    (hk : k2 ≠ k) : (assocDel k l).lookup k2 = l.lookup k2 := by
  induction l with
  | nil => simp [assocDel]
  | cons hd tl ih =>
    obtain ⟨k1, v1⟩ := hd
    by_cases h : k1 = k
    · subst h
      have hne : (k2 == k1) = false := by simpa using hk
      simp [assocDel, List.lookup, hne, ih]
    · by_cases h2 : k2 = k1
      · subst h2
        simp [assocDel, h, List.lookup]
      · have hne : (k2 == k1) = false := by simpa using h2
        simp [assocDel, h, List.lookup, hne, ih]

/-! ## Converters -/

/-- C8. For a configuration target map whose crn and namespace are strings (and
whose name, as the link schema types it, is absent or a string), the converter
returns a link without failure; CRN and Namespace are the map's crn and
namespace verbatim, and Name is present with the map's name exactly when the
map has a name, absent otherwise. -/
theorem mapToLink_copies_fields (m : GoMap) (c n : String)
    (hc : m.get "crn" = Scalar.str c) (hn : m.get "namespace" = Scalar.str n)
    (hname : m.get "name" = Scalar.nil ∨ ∃ x, m.get "name" = Scalar.str x) :
    ∃ l, resourceIBMIamTrustedProfilesLinkMapToCreateProfileLinkRequestLink m = some l ∧
      l.CRN = some c ∧ l.Namespace = some n ∧
      (∀ x, l.Name = some x ↔ m.get "name" = Scalar.str x) ∧
      (l.Name = none ↔ m.get "name" = Scalar.nil) := by
  rcases hname with h0 | ⟨x, hx⟩
  · refine ⟨{ CRN := some c, Namespace := some n, Name := none }, ?_, rfl, rfl, ?_, ?_⟩
    · simp [resourceIBMIamTrustedProfilesLinkMapToCreateProfileLinkRequestLink, hc, hn, h0,
        Scalar.assertString]
    · intro y; simp [h0]
    · simp [h0]
  · refine ⟨{ CRN := some c, Namespace := some n, Name := some x }, ?_, rfl, rfl, ?_, ?_⟩
    · simp [resourceIBMIamTrustedProfilesLinkMapToCreateProfileLinkRequestLink, hc, hn, hx,
        Scalar.assertString]
    · intro y; simp [hx]
    · simp [hx]

/-- Witness for C8: a target map with empty namespace and an empty name. -/
theorem mapToLink_copies_fields_witness :
    ∃ l, resourceIBMIamTrustedProfilesLinkMapToCreateProfileLinkRequestLink
        [("crn", Scalar.str "crn:v1:bluemix:vsi"), ("namespace", Scalar.str ""),
         ("name", Scalar.str "")] = some l ∧
      l.CRN = some "crn:v1:bluemix:vsi" ∧ l.Namespace = some "" ∧
      (∀ x, l.Name = some x ↔
        GoMap.get [("crn", Scalar.str "crn:v1:bluemix:vsi"), ("namespace", Scalar.str ""),
          ("name", Scalar.str "")] "name" = Scalar.str x) ∧
      (l.Name = none ↔
        GoMap.get [("crn", Scalar.str "crn:v1:bluemix:vsi"), ("namespace", Scalar.str ""),
          ("name", Scalar.str "")] "name" = Scalar.nil) :=
  mapToLink_copies_fields _ "crn:v1:bluemix:vsi" "" (by decide) (by decide)
    (Or.inr ⟨"", by decide⟩)

/-- C1. Round trip of the two converters. For a configuration target map with
string crn and namespace, converting to a request link, carrying the three
fields over to a record link, and converting back gives a map whose crn and
namespace point to the original strings, whose name points to the original
name when there was one (the empty string included), and which has no name key
at all when the original had no name. -/
theorem converters_round_trip (m : GoMap) (c n : String)
    (hc : m.get "crn" = Scalar.str c) (hn : m.get "namespace" = Scalar.str n)
    (hname : m.get "name" = Scalar.nil ∨ ∃ x, m.get "name" = Scalar.str x) :
    ∃ l, resourceIBMIamTrustedProfilesLinkMapToCreateProfileLinkRequestLink m = some l ∧
      (resourceIBMIamTrustedProfilesLinkCreateProfileLinkRequestLinkToMap (carryLink l)).get "crn"
        = Scalar.strPtr (some c) ∧
      (resourceIBMIamTrustedProfilesLinkCreateProfileLinkRequestLinkToMap
        (carryLink l)).get "namespace" = Scalar.strPtr (some n) ∧
      (∀ x, m.get "name" = Scalar.str x →
        (resourceIBMIamTrustedProfilesLinkCreateProfileLinkRequestLinkToMap
          (carryLink l)).get "name" = Scalar.strPtr (some x)) ∧
      (m.get "name" = Scalar.nil →
        (resourceIBMIamTrustedProfilesLinkCreateProfileLinkRequestLinkToMap
          (carryLink l)).lookup "name" = none) := by
  rcases hname with h0 | ⟨x, hx⟩
  · refine ⟨{ CRN := some c, Namespace := some n, Name := none }, ?_, ?_, ?_, ?_, ?_⟩
    · simp [resourceIBMIamTrustedProfilesLinkMapToCreateProfileLinkRequestLink, hc, hn, h0,
        Scalar.assertString]
    · simp [resourceIBMIamTrustedProfilesLinkCreateProfileLinkRequestLinkToMap, carryLink,
        GoMap.get, GoMap.set, assocPut, List.lookup]
    · simp [resourceIBMIamTrustedProfilesLinkCreateProfileLinkRequestLinkToMap, carryLink,
        GoMap.get, GoMap.set, assocPut, List.lookup]
    · intro y hy; rw [h0] at hy; cases hy
    · intro _
      simp [resourceIBMIamTrustedProfilesLinkCreateProfileLinkRequestLinkToMap, carryLink,
        GoMap.set, assocPut, List.lookup]
  · refine ⟨{ CRN := some c, Namespace := some n, Name := some x }, ?_, ?_, ?_, ?_, ?_⟩
    · simp [resourceIBMIamTrustedProfilesLinkMapToCreateProfileLinkRequestLink, hc, hn, hx,
        Scalar.assertString]
    · simp [resourceIBMIamTrustedProfilesLinkCreateProfileLinkRequestLinkToMap, carryLink,
        GoMap.get, GoMap.set, assocPut, List.lookup]
    · simp [resourceIBMIamTrustedProfilesLinkCreateProfileLinkRequestLinkToMap, carryLink,
        GoMap.get, GoMap.set, assocPut, List.lookup]
    · intro y hy
      rw [hx] at hy
      cases hy
      simp [resourceIBMIamTrustedProfilesLinkCreateProfileLinkRequestLinkToMap, carryLink,
        GoMap.get, GoMap.set, assocPut, List.lookup]
    · intro h0; rw [hx] at h0; cases h0

/-! ## Resource data facts -/

/-- The schema declares no `link_id`, so the read of it is answered with the nil
interface on every resource data. -/
theorem get_link_id (d : ResourceData) : d.Get "link_id" = Value.scalar Scalar.nil := rfl

/-- The type assertion on the `link_id` read fails on every resource data. -/
theorem link_id_not_string (d : ResourceData) : (d.Get "link_id").assertString = none := rfl

/-! ## Read and Delete, exit by exit -/

theorem assertString_eq_some (v : Value) (s : String) :
    v.assertString = some s ↔ v = strValue s := by
  cases v with
  | scalar sc => cases sc <;> simp [Value.assertString, strValue]
  | map m => simp [Value.assertString, strValue]
  | list ms => simp [Value.assertString, strValue]

theorem get_setId (d : ResourceData) (id key : String) : (d.SetId id).Get key = d.Get key := rfl

theorem read_unavailable (dts : Option DateTime → String) (d : ResourceData)
    (meta : ClientSession) (e : String) (hmeta : meta.IAMIdentityV1API = Except.error e) :
    resourceIBMIamTrustedProfilesLinkRead dts d meta =
      { d := d, calls := [], outcome := Outcome.returned (diag.FromErr e) } := by
  unfold resourceIBMIamTrustedProfilesLinkRead
  simp only [hmeta]


/-- Once the client is obtained, Read panics before any remote call: the
`profile_id` read is not a string, or else the `link_id` read is not. -/
theorem read_with_client (dts : Option DateTime → String) (d : ResourceData)
    (meta : ClientSession) (client : IamIdentityV1)
    (hmeta : meta.IAMIdentityV1API = Except.ok client) :
    resourceIBMIamTrustedProfilesLinkRead dts d meta =
      { d := d, calls := [], outcome := Outcome.panicked } := by
  unfold resourceIBMIamTrustedProfilesLinkRead
  simp only [hmeta]
  cases hp : (d.Get "profile_id").assertString with
  | none => rfl
  | some P => simp only [link_id_not_string]

/-- Read never takes its not-found exit. -/
theorem readReportsNotFound_false (d : ResourceData) (meta : ClientSession) :
    readReportsNotFound d meta = false := by
  unfold readReportsNotFound
  cases hm : meta.IAMIdentityV1API with
  | error e => rfl
  | ok client =>
    simp only [link_id_not_string]
    cases (d.Get "profile_id").assertString <;> rfl

/-- Read leaves the resource data as it was, on every run. -/
theorem read_keeps_state (dts : Option DateTime → String) (d : ResourceData)
    (meta : ClientSession) : (resourceIBMIamTrustedProfilesLinkRead dts d meta).d = d := by
  cases hm : meta.IAMIdentityV1API with
  | error e => rw [read_unavailable dts d meta e hm]
  | ok client => rw [read_with_client dts d meta client hm]

theorem read_id (dts : Option DateTime → String) (d : ResourceData) (meta : ClientSession) :
    (resourceIBMIamTrustedProfilesLinkRead dts d meta).d.id =
      if readReportsNotFound d meta then "" else d.id := by
  rw [read_keeps_state, readReportsNotFound_false]
  rfl

theorem delete_unavailable (d : ResourceData) (meta : ClientSession) (e : String)
    (hmeta : meta.IAMIdentityV1API = Except.error e) :
    resourceIBMIamTrustedProfilesLinkDelete d meta =
      { d := d, calls := [], outcome := Outcome.returned (diag.FromErr e) } := by
  unfold resourceIBMIamTrustedProfilesLinkDelete
  simp only [hmeta]


/-- Once the client is obtained, Delete panics before any remote call. -/
theorem delete_with_client (d : ResourceData) (meta : ClientSession) (client : IamIdentityV1)
    (hmeta : meta.IAMIdentityV1API = Except.ok client) :
    resourceIBMIamTrustedProfilesLinkDelete d meta =
      { d := d, calls := [], outcome := Outcome.panicked } := by
  unfold resourceIBMIamTrustedProfilesLinkDelete
  simp only [hmeta]
  cases hp : (d.Get "profile_id").assertString with
  | none => rfl
  | some P => simp only [link_id_not_string]

/-! ## Create, exit by exit -/

theorem createLinkOptionsOf_profile (d : ResourceData) (opts : CreateLinkOptions)
    (h : createLinkOptionsOf d = some opts) :
    ∃ P, d.Get "profile_id" = strValue P ∧ opts.ProfileID = some P := by
  unfold createLinkOptionsOf at h
  cases hp : (d.Get "profile_id").assertString with
  | none => simp [hp] at h
  | some P =>
    refine ⟨P, (assertString_eq_some _ _).1 hp, ?_⟩
    simp only [hp] at h
    cases hc : (d.Get "cr_type").assertString with
    | none => simp [hc] at h
    | some T =>
      simp only [hc] at h
      cases hl : (d.GetElem "link" 0).assertMap with
      | none => simp [hl] at h
      | some m =>
        simp only [hl] at h
        cases hm : resourceIBMIamTrustedProfilesLinkMapToCreateProfileLinkRequestLink m with
        | none => simp [hm] at h
        | some link =>
          simp only [hm] at h
          split at h
          · cases hn : (d.Get "name").assertString with
            | none => simp [hn] at h
            | some nm =>
              simp only [hn, Option.some.injEq] at h
              rw [← h]
          · simp only [Option.some.injEq] at h
            rw [← h]

theorem create_unavailable (dts : Option DateTime → String) (d : ResourceData)
    (meta : ClientSession) (e : String) (hmeta : meta.IAMIdentityV1API = Except.error e) :
    resourceIBMIamTrustedProfilesLinkCreate dts d meta =
      { d := d, calls := [], outcome := Outcome.returned (diag.FromErr e) } := by
  unfold resourceIBMIamTrustedProfilesLinkCreate
  simp only [hmeta]

theorem create_request_panics (dts : Option DateTime → String) (d : ResourceData)
    (meta : ClientSession) (client : IamIdentityV1)
    (hmeta : meta.IAMIdentityV1API = Except.ok client) (hopts : createLinkOptionsOf d = none) :
    resourceIBMIamTrustedProfilesLinkCreate dts d meta =
      { d := d, calls := [], outcome := Outcome.panicked } := by
  unfold resourceIBMIamTrustedProfilesLinkCreate
  simp only [hmeta, hopts]

theorem create_failure (dts : Option DateTime → String) (d : ResourceData)
    (meta : ClientSession) (client : IamIdentityV1) (opts : CreateLinkOptions)
    (f : RemoteFailure)
    (hmeta : meta.IAMIdentityV1API = Except.ok client) (hopts : createLinkOptionsOf d = some opts)
    (hcreate : client.CreateLink opts = Except.error f) :
    resourceIBMIamTrustedProfilesLinkCreate dts d meta =
      { d := d, calls := [RemoteCall.createLink opts],
        outcome := Outcome.returned (diag.FromErr
          ("CreateLink failed " ++ f.err ++ "\n" ++ renderResponse f.response)) } := by
  unfold resourceIBMIamTrustedProfilesLinkCreate
  simp only [hmeta, hopts, hcreate]

theorem create_nil_id (dts : Option DateTime → String) (d : ResourceData)
    (meta : ClientSession) (client : IamIdentityV1) (opts : CreateLinkOptions)
    (created : ProfileLink)
    (hmeta : meta.IAMIdentityV1API = Except.ok client) (hopts : createLinkOptionsOf d = some opts)
    (hcreate : client.CreateLink opts = Except.ok created) (hid : created.ID = none) :
    resourceIBMIamTrustedProfilesLinkCreate dts d meta =
      { d := d, calls := [RemoteCall.createLink opts], outcome := Outcome.panicked } := by
  unfold resourceIBMIamTrustedProfilesLinkCreate
  simp only [hmeta, hopts, hcreate, hid]
  cases opts.ProfileID <;> rfl

theorem create_delegates (dts : Option DateTime → String) (d : ResourceData)
    (meta : ClientSession) (client : IamIdentityV1) (opts : CreateLinkOptions)
    (created : ProfileLink) (P L : String)
    (hmeta : meta.IAMIdentityV1API = Except.ok client) (hopts : createLinkOptionsOf d = some opts)
    (hcreate : client.CreateLink opts = Except.ok created)
    (hP : opts.ProfileID = some P) (hid : created.ID = some L) :
    resourceIBMIamTrustedProfilesLinkCreate dts d meta =
      { d := (resourceIBMIamTrustedProfilesLinkRead dts (d.SetId (P ++ "/" ++ L)) meta).d,
        calls := RemoteCall.createLink opts ::
          (resourceIBMIamTrustedProfilesLinkRead dts (d.SetId (P ++ "/" ++ L)) meta).calls,
        outcome := (resourceIBMIamTrustedProfilesLinkRead dts (d.SetId (P ++ "/" ++ L)) meta).outcome } := by
  unfold resourceIBMIamTrustedProfilesLinkCreate
  simp only [hmeta, hopts, hcreate, hid, hP]


/-- After a successful CreateLink with link id `L`, Create stores the composite
identifier and then panics in the cascaded Read, with CreateLink as its only
remote call. -/
theorem create_after_createLink (dts : Option DateTime → String) (d : ResourceData)
    (meta : ClientSession) (client : IamIdentityV1) (opts : CreateLinkOptions)
    (created : ProfileLink) (P L : String)
    (hmeta : meta.IAMIdentityV1API = Except.ok client) (hopts : createLinkOptionsOf d = some opts)
    (hcreate : client.CreateLink opts = Except.ok created)
    (hP : opts.ProfileID = some P) (hid : created.ID = some L) :
    resourceIBMIamTrustedProfilesLinkCreate dts d meta =
      { d := d.SetId (P ++ "/" ++ L), calls := [RemoteCall.createLink opts],
        outcome := Outcome.panicked } := by
  rw [create_delegates dts d meta client opts created P L hmeta hopts hcreate hP hid,
    read_with_client dts _ meta client hmeta]

/-- Every run of Create, Read or Delete that returns diagnostics leaves the
resource data as it was before the call. -/
theorem return_keeps_state (dts : Option DateTime → String) (d : ResourceData)
    (meta : ClientSession) (diags : Diagnostics) :
    ((resourceIBMIamTrustedProfilesLinkRead dts d meta).outcome = Outcome.returned diags →
      (resourceIBMIamTrustedProfilesLinkRead dts d meta).d = d) ∧
    ((resourceIBMIamTrustedProfilesLinkDelete d meta).outcome = Outcome.returned diags →
      (resourceIBMIamTrustedProfilesLinkDelete d meta).d = d) ∧
    ((resourceIBMIamTrustedProfilesLinkCreate dts d meta).outcome = Outcome.returned diags →
      (resourceIBMIamTrustedProfilesLinkCreate dts d meta).d = d) := by
  refine ⟨fun _ => read_keeps_state dts d meta, ?_, ?_⟩
  · intro _
    cases hm : meta.IAMIdentityV1API with
    | error e => rw [delete_unavailable d meta e hm]
    | ok client => rw [delete_with_client d meta client hm]
  · intro hout
    cases hm : meta.IAMIdentityV1API with
    | error e => rw [create_unavailable dts d meta e hm]
    | ok client =>
      cases hopts : createLinkOptionsOf d with
      | none => rw [create_request_panics dts d meta client hm hopts]
      | some opts =>
        cases hc : client.CreateLink opts with
        | error f => rw [create_failure dts d meta client opts f hm hopts hc]
        | ok created =>
          obtain ⟨P, _, hoP⟩ := createLinkOptionsOf_profile d opts hopts
          cases hid : created.ID with
          | none => rw [create_nil_id dts d meta client opts created hm hopts hc hid]
          | some L =>
            rw [create_after_createLink dts d meta client opts created P L hm hopts hc hoP hid]
              at hout
            cases hout

/-- The read of the top-level name: the held value, otherwise the empty string. -/
theorem get_name (d : ResourceData) :
    d.Get "name" =
      match d.attrs.lookup "name" with
      | some v => v
      | none => strValue "" := rfl

/-- The guarded read of the top-level name: set means held and not the empty
string. -/
theorem getOk_name (d : ResourceData) :
    d.GetOk "name" =
      match d.attrs.lookup "name" with
      | some v => (v, decide (v ≠ strValue ""))
      | none => (strValue "", false) := rfl

theorem createLinkOptionsOf_name (d : ResourceData) (opts : CreateLinkOptions)
    (h : createLinkOptionsOf d = some opts) :
    opts.Name = if (d.GetOk "name").2 then (d.Get "name").assertString else none := by
  unfold createLinkOptionsOf at h
  cases hp : (d.Get "profile_id").assertString with
  | none => simp [hp] at h
  | some P =>
    simp only [hp] at h
    cases hc : (d.Get "cr_type").assertString with
    | none => simp [hc] at h
    | some T =>
      simp only [hc] at h
      cases hl : (d.GetElem "link" 0).assertMap with
      | none => simp [hl] at h
      | some m =>
        simp only [hl] at h
        cases hm : resourceIBMIamTrustedProfilesLinkMapToCreateProfileLinkRequestLink m with
        | none => simp [hm] at h
        | some link =>
          simp only [hm] at h
          split at h
          · rename_i hok
            cases hn : (d.Get "name").assertString with
            | none => simp [hn] at h
            | some nm =>
              simp only [hn, Option.some.injEq] at h
              rw [← h]
              simp [hok]
          · rename_i hok
            simp only [Option.some.injEq] at h
            rw [← h]
            simp [hok]


/-! ## The claims -/

/-- C2. For a configuration with profile identifier `P` whose request builds,
and a successful CreateLink answer with link id `L`, Create is Read run on the
resource data whose identifier has been set to `P ++ "/" ++ L`, after the one
CreateLink call; and that identifier is the one left after Create whenever the
cascaded Read does not take its not-found exit. -/
theorem create_stores_composite_id (dts : Option DateTime → String) (d : ResourceData)
    (meta : ClientSession) (client : IamIdentityV1) (opts : CreateLinkOptions)
    (created : ProfileLink) (P L : String)
    (hmeta : meta.IAMIdentityV1API = Except.ok client)
    (hP : d.Get "profile_id" = strValue P)
    (hopts : createLinkOptionsOf d = some opts)
    (hcreate : client.CreateLink opts = Except.ok created) (hid : created.ID = some L) :
    resourceIBMIamTrustedProfilesLinkCreate dts d meta =
      { d := (resourceIBMIamTrustedProfilesLinkRead dts (d.SetId (P ++ "/" ++ L)) meta).d,
        calls := RemoteCall.createLink opts ::
          (resourceIBMIamTrustedProfilesLinkRead dts (d.SetId (P ++ "/" ++ L)) meta).calls,
        outcome :=
          (resourceIBMIamTrustedProfilesLinkRead dts (d.SetId (P ++ "/" ++ L)) meta).outcome } ∧
    (d.SetId (P ++ "/" ++ L)).id = P ++ "/" ++ L ∧
    (readReportsNotFound (d.SetId (P ++ "/" ++ L)) meta = false →
      (resourceIBMIamTrustedProfilesLinkCreate dts d meta).d.id = P ++ "/" ++ L) := by
  obtain ⟨P2, hP2, hoP⟩ := createLinkOptionsOf_profile d opts hopts
  have hPP : P2 = P := by
    rw [hP] at hP2
    simpa [strValue] using hP2.symm
  subst hPP
  have hc := create_delegates dts d meta client opts created P2 L hmeta hopts hcreate hoP hid
  refine ⟨hc, rfl, ?_⟩
  intro hnf
  rw [hc]
  simp only []
  rw [read_id, hnf]
  rfl

/-- Witness for C2: profile `profile-abc`, server-assigned link id `link-123`. -/
theorem create_stores_composite_id_witness :
    (resourceIBMIamTrustedProfilesLinkCreate sampleDateTimeToString sampleConfig
      (sessionOf sampleClient)).d.id = "profile-abc/link-123" :=
  (create_stores_composite_id sampleDateTimeToString sampleConfig
    (sessionOf sampleClient) sampleClient sampleCreateLinkOptions sampleRecord
    "profile-abc" "link-123" rfl (by decide) (by decide) rfl rfl).2.2 (by decide)

/-- C3, the code at the failing input. The sample configuration holds nothing
under `link_id`. CreateLink returns link id `link-123` and the identifier
`profile-abc/link-123` is stored, but the cascaded Read panics on the
`link_id` read: the only call issued is CreateLink, no GetLink request keyed by
`link-123` follows. Delete on the resulting resource data panics the same way
and issues no DeleteLink request. -/
theorem create_then_requests_miss_link_id :
    (resourceIBMIamTrustedProfilesLinkCreate sampleDateTimeToString sampleConfig
      (sessionOf sampleClient)).d.id = "profile-abc/link-123" ∧
    (resourceIBMIamTrustedProfilesLinkCreate sampleDateTimeToString sampleConfig
      (sessionOf sampleClient)).calls = [RemoteCall.createLink sampleCreateLinkOptions] ∧
    (resourceIBMIamTrustedProfilesLinkCreate sampleDateTimeToString sampleConfig
      (sessionOf sampleClient)).outcome = Outcome.panicked ∧
    (resourceIBMIamTrustedProfilesLinkDelete
      (resourceIBMIamTrustedProfilesLinkCreate sampleDateTimeToString sampleConfig
        (sessionOf sampleClient)).d (sessionOf sampleClient)).calls = [] ∧
    (resourceIBMIamTrustedProfilesLinkDelete
      (resourceIBMIamTrustedProfilesLinkCreate sampleDateTimeToString sampleConfig
        (sessionOf sampleClient)).d (sessionOf sampleClient)).outcome = Outcome.panicked := by
  decide


/-- C4, the code at the failing input. On the sample configuration, with a
client whose CreateLink and GetLink both answer the sample record, Create
panics in the cascaded Read before any GetLink request is issued, so no server
record is fetched and no attribute is written: the attributes are those of the
configuration, and `entity_tag`, `created_at` and `modified_at` still answer the
empty string where the record has `tag-1` and two timestamps. A Read on the
data that Create leaves panics the same way and writes nothing either. -/
theorem create_leaves_attributes_unwritten :
    (resourceIBMIamTrustedProfilesLinkCreate sampleDateTimeToString sampleConfig
      (sessionOf sampleClient)).outcome = Outcome.panicked ∧
    (resourceIBMIamTrustedProfilesLinkCreate sampleDateTimeToString sampleConfig
      (sessionOf sampleClient)).calls = [RemoteCall.createLink sampleCreateLinkOptions] ∧
    (resourceIBMIamTrustedProfilesLinkCreate sampleDateTimeToString sampleConfig
      (sessionOf sampleClient)).d.attrs = sampleConfig.attrs ∧
    (resourceIBMIamTrustedProfilesLinkCreate sampleDateTimeToString sampleConfig
      (sessionOf sampleClient)).d.Get "entity_tag" = strValue "" ∧
    (resourceIBMIamTrustedProfilesLinkCreate sampleDateTimeToString sampleConfig
      (sessionOf sampleClient)).d.Get "created_at" = strValue "" ∧
    (resourceIBMIamTrustedProfilesLinkCreate sampleDateTimeToString sampleConfig
      (sessionOf sampleClient)).d.Get "modified_at" = strValue "" ∧
    sampleRecord.EntityTag = some "tag-1" ∧
    sampleDateTimeToString sampleRecord.CreatedAt = "1" ∧
    resourceIBMIamTrustedProfilesLinkRead sampleDateTimeToString
      (resourceIBMIamTrustedProfilesLinkCreate sampleDateTimeToString sampleConfig
        (sessionOf sampleClient)).d (sessionOf sampleClient) =
      { d := (resourceIBMIamTrustedProfilesLinkCreate sampleDateTimeToString sampleConfig
          (sessionOf sampleClient)).d, calls := [], outcome := Outcome.panicked } := by
  decide

/-- C5, the code at the failing input. The sample state holds the identifier
`profile-abc/link-123`; the client answers every GetLink request with a failure
of status 404. Read panics on the `link_id` read before GetLink is issued: no
remote call is made, no diagnostics are returned, and the identifier is not
cleared. -/
theorem read_panics_before_not_found :
    sampleClientNotFound.GetLink { ProfileID := some "profile-abc", LinkID := some "link-123" } =
      Except.error { err := "not found", response := some ⟨404, "HTTP 404"⟩ } ∧
    (resourceIBMIamTrustedProfilesLinkRead sampleDateTimeToString sampleState
      (sessionOf sampleClientNotFound)).outcome = Outcome.panicked ∧
    (resourceIBMIamTrustedProfilesLinkRead sampleDateTimeToString sampleState
      (sessionOf sampleClientNotFound)).calls = [] ∧
    (resourceIBMIamTrustedProfilesLinkRead sampleDateTimeToString sampleState
      (sessionOf sampleClientNotFound)).d.id = "profile-abc/link-123" :=
  ⟨rfl, by decide⟩

/-- C6, the code at the failing input. The sample state holds the identifier
`profile-abc/link-123`; the client is obtained and answers every DeleteLink
request with success. Delete panics on the `link_id` read before DeleteLink is
issued: no remote call is made, no diagnostics are returned, and the identifier
is kept. -/
theorem delete_panics_before_deleteLink :
    sampleClient.DeleteLink { ProfileID := some "profile-abc", LinkID := some "link-123" } =
      Except.ok () ∧
    (resourceIBMIamTrustedProfilesLinkDelete sampleState (sessionOf sampleClient)).outcome =
      Outcome.panicked ∧
    (resourceIBMIamTrustedProfilesLinkDelete sampleState (sessionOf sampleClient)).calls = [] ∧
    (resourceIBMIamTrustedProfilesLinkDelete sampleState (sessionOf sampleClient)).d.id =
      "profile-abc/link-123" :=
  ⟨rfl, by decide⟩

/-- Counterexample to C7 as stated: the configuration holds the top-level name
set to the empty string, and the request that Create builds carries no name. -/
theorem create_request_drops_empty_name :
    sampleConfigEmptyName.attrs.lookup "name" = some (strValue "") ∧
    createLinkOptionsOf sampleConfigEmptyName = some sampleCreateLinkOptions ∧
    sampleCreateLinkOptions.Name = none := by
  decide

/-- C7, amended. The request that Create builds carries the top-level name
exactly when the configuration holds a non-empty name, and then with that
value; with no name held, and with the empty string held, the request has no
name. -/
theorem create_request_name (d : ResourceData) (opts : CreateLinkOptions)
    (h : createLinkOptionsOf d = some opts) :
    (∀ s, opts.Name = some s ↔ (d.attrs.lookup "name" = some (strValue s) ∧ s ≠ "")) ∧
    (d.attrs.lookup "name" = none → opts.Name = none) ∧
    (d.attrs.lookup "name" = some (strValue "") → opts.Name = none) := by
  have hn := createLinkOptionsOf_name d opts h
  have key : ∀ s, opts.Name = some s ↔ (d.attrs.lookup "name" = some (strValue s) ∧ s ≠ "") := by
    intro s
    rw [hn, getOk_name, get_name]
    cases hl : d.attrs.lookup "name" with
    | none => simp
    | some v =>
      simp only []
      by_cases hv : v = strValue ""
      · subst hv
        simp only [ne_eq, not_true_eq_false, decide_False, Bool.false_eq_true, if_false,
          Option.some.injEq]
        constructor
        · intro hc; cases hc
        · rintro ⟨h1, h2⟩
          simp [strValue] at h1
          exact absurd h1.symm h2
      · simp only [ne_eq, hv, not_false_eq_true, decide_True, if_true, Option.some.injEq]
        rw [assertString_eq_some]
        constructor
        · intro hs
          refine ⟨hs, ?_⟩
          intro hs0
          subst hs0
          exact hv hs
        · rintro ⟨h1, _⟩
          exact h1
  refine ⟨key, ?_, ?_⟩
  · intro hnone
    cases ho : opts.Name with
    | none => rfl
    | some s =>
      have := (key s).1 ho
      rw [hnone] at this
      cases this.1
  · intro hempty
    cases ho : opts.Name with
    | none => rfl
    | some s =>
      have h1 := (key s).1 ho
      rw [hempty] at h1
      have h2 : s = "" := by
        have := h1.1
        simp [strValue] at this
        exact this.symm
      exact absurd h2 h1.2

/-- Witness for C7, amended: a non-empty configured name reaches the request. -/
theorem create_request_name_witness :
    createLinkOptionsOf sampleConfigNamed =
      some { sampleCreateLinkOptions with Name := some "my-link" } ∧
    (sampleConfigNamed.attrs.lookup "name" = some (strValue "my-link") ∧ "my-link" ≠ "") :=
  ⟨by decide,
   ((create_request_name sampleConfigNamed { sampleCreateLinkOptions with Name := some "my-link" }
      (by decide)).1 "my-link").1 rfl⟩


/-- C9. When CreateLink fails, Create returns exactly one diagnostic, of
severity Error, whose summary is `CreateLink failed`, the text of the
underlying error, a line break, and the rendering of the raw response (`null`
and a line break for a nil response); it has issued exactly the one CreateLink
call and no GetLink call, and leaves the resource data (the identifier
included) as it was. -/
theorem create_failure_reports_and_stops (dts : Option DateTime → String) (d : ResourceData)
    (meta : ClientSession) (client : IamIdentityV1) (opts : CreateLinkOptions)
    (f : RemoteFailure)
    (hmeta : meta.IAMIdentityV1API = Except.ok client)
    (hopts : createLinkOptionsOf d = some opts)
    (hcreate : client.CreateLink opts = Except.error f) :
    (resourceIBMIamTrustedProfilesLinkCreate dts d meta).outcome =
      Outcome.returned [Diagnostic.mk Severity.Error
        ("CreateLink failed " ++ f.err ++ "\n" ++
          (f.response.map DetailedResponse.text).getD "null\n")] ∧
    (resourceIBMIamTrustedProfilesLinkCreate dts d meta).calls = [RemoteCall.createLink opts] ∧
    (resourceIBMIamTrustedProfilesLinkCreate dts d meta).d = d := by
  rw [create_failure dts d meta client opts f hmeta hopts hcreate]
  refine ⟨?_, rfl, rfl⟩
  cases hr : f.response <;> simp [diag.FromErr, renderResponse, hr]

/-- Witness for C9: CreateLink answers status 500. -/
theorem create_failure_reports_and_stops_witness :
    (resourceIBMIamTrustedProfilesLinkCreate sampleDateTimeToString sampleConfig
      (sessionOf sampleClientCreateFails)).outcome =
      Outcome.returned [Diagnostic.mk Severity.Error "CreateLink failed boom\nHTTP 500"] ∧
    (resourceIBMIamTrustedProfilesLinkCreate sampleDateTimeToString sampleConfig
      (sessionOf sampleClientCreateFails)).calls = [RemoteCall.createLink sampleCreateLinkOptions] ∧
    (resourceIBMIamTrustedProfilesLinkCreate sampleDateTimeToString sampleConfig
      (sessionOf sampleClientCreateFails)).d = sampleConfig :=
  create_failure_reports_and_stops sampleDateTimeToString sampleConfig
    (sessionOf sampleClientCreateFails) sampleClientCreateFails sampleCreateLinkOptions
    { err := "boom", response := some ⟨500, "HTTP 500"⟩ } rfl (by decide) rfl

/-- C10, the code at the failing input. On the sample configuration, with a
client on which every remote call succeeds, Create neither returns without
diagnostics nor returns an error diagnostic with the resource data as before:
it panics, and the identifier, empty before the call, is left set to
`profile-abc/link-123`. -/
theorem create_panics_with_id_stored :
    noPartialSuccess sampleConfig
      (resourceIBMIamTrustedProfilesLinkCreate sampleDateTimeToString sampleConfig
        (sessionOf sampleClient)) = false ∧
    sampleConfig.id = "" ∧
    (resourceIBMIamTrustedProfilesLinkCreate sampleDateTimeToString sampleConfig
      (sessionOf sampleClient)).d = sampleConfig.SetId "profile-abc/link-123" := by
  decide

/-- Witness for C1: a target map without a name key. -/
theorem converters_round_trip_witness :
    ∃ l, resourceIBMIamTrustedProfilesLinkMapToCreateProfileLinkRequestLink
        [("crn", Scalar.str "crn:v1:bluemix:vsi"), ("namespace", Scalar.str "default")] = some l ∧
      (resourceIBMIamTrustedProfilesLinkCreateProfileLinkRequestLinkToMap (carryLink l)).get "crn"
        = Scalar.strPtr (some "crn:v1:bluemix:vsi") ∧
      (resourceIBMIamTrustedProfilesLinkCreateProfileLinkRequestLinkToMap
        (carryLink l)).get "namespace" = Scalar.strPtr (some "default") ∧
      (resourceIBMIamTrustedProfilesLinkCreateProfileLinkRequestLinkToMap
        (carryLink l)).lookup "name" = none := by
  obtain ⟨l, h1, h2, h3, _, h5⟩ := converters_round_trip
    [("crn", Scalar.str "crn:v1:bluemix:vsi"), ("namespace", Scalar.str "default")]
    "crn:v1:bluemix:vsi" "default" (by decide) (by decide) (Or.inl (by decide))
  exact ⟨l, h1, h2, h3, h5 (by decide)⟩


end TrustedProfilesLink
